import Mathlib

/-
Verification of the PranAIR emergency-dispatch core.

The definitions below are shallow embeddings of the JavaScript source:
  - calculateHaversineDistance : src/TacticalMapGrid.jsx (asin form)
  - calculatePriorityScore, ranking pipeline : src/TacticalMapGrid.jsx
  - calculateDistance (atan2 form), calculateETA, analyzeCriticalTimeWindow,
    drone movement tick : src/CommandCenterNew.jsx
JavaScript floating point numbers are modelled as real numbers; JS string
operations are modelled with Lean Strings.
-/

namespace PranAIR

open Real List

/-- Haversine great-circle distance from TacticalMapGrid.jsx
(calculateHaversineDistance): degree inputs, kilometer output, Earth radius
6371 km, final angle via 2 * asin(sqrt a). -/
noncomputable def calculateHaversineDistance (lat1 lon1 lat2 lon2 : ℝ) : ℝ :=
  let R : ℝ := 6371
  let toRadians : ℝ → ℝ := fun degrees => degrees * (Real.pi / 180)
  let phi1 := toRadians lat1
  let phi2 := toRadians lat2
  let dPhi := toRadians (lat2 - lat1)
  let dLam := toRadians (lon2 - lon1)
  let a := Real.sin (dPhi / 2) * Real.sin (dPhi / 2) +
    Real.cos phi1 * Real.cos phi2 * Real.sin (dLam / 2) * Real.sin (dLam / 2)
  let c := 2 * Real.arcsin (Real.sqrt a)
  R * c

/-- JavaScript Math.atan2 (used by CommandCenterNew.jsx's calculateDistance):
full four-quadrant arctangent. -/
noncomputable def atan2 (y x : ℝ) : ℝ :=
  if 0 < x then Real.arctan (y / x)
  else if x < 0 then
    (if 0 ≤ y then Real.arctan (y / x) + Real.pi else Real.arctan (y / x) - Real.pi)
  else
    (if 0 < y then Real.pi / 2 else if y < 0 then -(Real.pi / 2) else 0)

/-- Haversine distance from CommandCenterNew.jsx (calculateDistance): same
formula but the final angle is 2 * atan2(sqrt a, sqrt (1 - a)). -/
noncomputable def calculateDistance (lat1 lon1 lat2 lon2 : ℝ) : ℝ :=
  let R : ℝ := 6371
  let dLat := (lat2 - lat1) * Real.pi / 180
  let dLon := (lon2 - lon1) * Real.pi / 180
  let a := Real.sin (dLat / 2) * Real.sin (dLat / 2) +
    Real.cos (lat1 * Real.pi / 180) * Real.cos (lat2 * Real.pi / 180) *
    Real.sin (dLon / 2) * Real.sin (dLon / 2)
  let c := 2 * atan2 (Real.sqrt a) (Real.sqrt (1 - a))
  R * c

/-- The common haversine kernel `a` shared by both source implementations. -/
noncomputable def havTerm (lat1 lon1 lat2 lon2 : ℝ) : ℝ :=
  Real.sin ((lat2 - lat1) * Real.pi / 180 / 2) * Real.sin ((lat2 - lat1) * Real.pi / 180 / 2) +
    Real.cos (lat1 * Real.pi / 180) * Real.cos (lat2 * Real.pi / 180) *
    Real.sin ((lon2 - lon1) * Real.pi / 180 / 2) * Real.sin ((lon2 - lon1) * Real.pi / 180 / 2)

lemma calculateDistance_eq (lat1 lon1 lat2 lon2 : ℝ) :
    calculateDistance lat1 lon1 lat2 lon2 =
      6371 * (2 * atan2 (Real.sqrt (havTerm lat1 lon1 lat2 lon2))
        (Real.sqrt (1 - havTerm lat1 lon1 lat2 lon2))) := rfl

lemma calculateHaversineDistance_eq (lat1 lon1 lat2 lon2 : ℝ) :
    calculateHaversineDistance lat1 lon1 lat2 lon2 =
      6371 * (2 * Real.arcsin (Real.sqrt (havTerm lat1 lon1 lat2 lon2))) := by
  unfold calculateHaversineDistance havTerm
  ring_nf

lemma havTerm_self (lat lon : ℝ) : havTerm lat lon lat lon = 0 := by
  simp [havTerm, sub_self]

lemma havTerm_symm (lat1 lon1 lat2 lon2 : ℝ) :
    havTerm lat1 lon1 lat2 lon2 = havTerm lat2 lon2 lat1 lon1 := by
  unfold havTerm
  rw [show lat1 - lat2 = -(lat2 - lat1) by ring, show lon1 - lon2 = -(lon2 - lon1) by ring]
  simp only [neg_mul, neg_div, Real.sin_neg]
  ring

lemma atan2_nonneg {y x : ℝ} (hy : 0 ≤ y) (hx : 0 ≤ x) : 0 ≤ atan2 y x := by
  unfold atan2
  rcases lt_or_eq_of_le hx with hx1 | hx1
  · rw [if_pos hx1]
    have h0 : Real.arctan 0 ≤ Real.arctan (y / x) :=
      Real.arctan_strictMono.monotone (div_nonneg hy hx1.le)
    rwa [Real.arctan_zero] at h0
  · rw [if_neg (by rw [← hx1]; exact lt_irrefl 0), if_neg (by rw [← hx1]; exact lt_irrefl 0)]
    rcases lt_or_eq_of_le hy with hy1 | hy1
    · rw [if_pos hy1]
      positivity
    · rw [if_neg (by rw [← hy1]; exact lt_irrefl 0), if_neg (by rw [← hy1]; exact lt_irrefl 0)]

lemma atan2_zero_one : atan2 0 1 = 0 := by
  unfold atan2
  rw [if_pos one_pos]
  simp [Real.arctan_zero]

lemma calculateHaversineDistance_self (lat lon : ℝ) :
    calculateHaversineDistance lat lon lat lon = 0 := by
  rw [calculateHaversineDistance_eq, havTerm_self]
  simp

lemma calculateHaversineDistance_symm (lat1 lon1 lat2 lon2 : ℝ) :
    calculateHaversineDistance lat1 lon1 lat2 lon2 =
      calculateHaversineDistance lat2 lon2 lat1 lon1 := by
  rw [calculateHaversineDistance_eq, calculateHaversineDistance_eq, havTerm_symm]

lemma calculateHaversineDistance_nonneg (lat1 lon1 lat2 lon2 : ℝ) :
    0 ≤ calculateHaversineDistance lat1 lon1 lat2 lon2 := by
  rw [calculateHaversineDistance_eq]
  have h1 : 0 ≤ Real.arcsin (Real.sqrt (havTerm lat1 lon1 lat2 lon2)) :=
    Real.arcsin_nonneg.mpr (Real.sqrt_nonneg _)
  linarith

lemma calculateDistance_self (lat lon : ℝ) : calculateDistance lat lon lat lon = 0 := by
  rw [calculateDistance_eq, havTerm_self]
  simp [atan2_zero_one]

lemma calculateDistance_symm (lat1 lon1 lat2 lon2 : ℝ) :
    calculateDistance lat1 lon1 lat2 lon2 = calculateDistance lat2 lon2 lat1 lon1 := by
  rw [calculateDistance_eq, calculateDistance_eq, havTerm_symm]

lemma calculateDistance_nonneg (lat1 lon1 lat2 lon2 : ℝ) :
    0 ≤ calculateDistance lat1 lon1 lat2 lon2 := by
  rw [calculateDistance_eq]
  have h1 : 0 ≤ atan2 (Real.sqrt (havTerm lat1 lon1 lat2 lon2))
      (Real.sqrt (1 - havTerm lat1 lon1 lat2 lon2)) :=
    atan2_nonneg (Real.sqrt_nonneg _) (Real.sqrt_nonneg _)
  linarith

/-- C8: both Haversine implementations vanish on identical points, are
symmetric in their two arguments, and are never negative. -/
theorem haversine_metric_properties (lat1 lon1 lat2 lon2 : ℝ) :
    calculateHaversineDistance lat1 lon1 lat1 lon1 = 0 ∧
    calculateHaversineDistance lat1 lon1 lat2 lon2 =
      calculateHaversineDistance lat2 lon2 lat1 lon1 ∧
    0 ≤ calculateHaversineDistance lat1 lon1 lat2 lon2 ∧
    calculateDistance lat1 lon1 lat1 lon1 = 0 ∧
    calculateDistance lat1 lon1 lat2 lon2 = calculateDistance lat2 lon2 lat1 lon1 ∧
    0 ≤ calculateDistance lat1 lon1 lat2 lon2 :=
  ⟨calculateHaversineDistance_self lat1 lon1,
   calculateHaversineDistance_symm lat1 lon1 lat2 lon2,
   calculateHaversineDistance_nonneg lat1 lon1 lat2 lon2,
   calculateDistance_self lat1 lon1,
   calculateDistance_symm lat1 lon1 lat2 lon2,
   calculateDistance_nonneg lat1 lon1 lat2 lon2⟩

/-- Priority score from TacticalMapGrid.jsx (calculatePriorityScore):
severity weighted by 1.5 minus the distance in km. -/
def calculatePriorityScore (severity distanceKm : ℝ) : ℝ :=
  severity * 1.5 - distanceKm

/-- A case marker as consumed by the ranking code of TacticalMapGrid.jsx:
an id plus coordinates and a severity score. -/
structure Patient where
  id : String
  latitude : ℝ
  longitude : ℝ
  severity : ℝ

/-- The drone (vehicle) position as consumed by the ranking code. -/
structure Drone where
  latitude : ℝ
  longitude : ℝ

/-- One element of the array built by the ranking pipeline before sorting:
the patient together with its computed distance and priority. -/
structure RankEntry where
  patient : Patient
  distance : ℝ
  priority : ℝ

/-- The per-patient map step of PriorityRankingPanel / patientRankings in
TacticalMapGrid.jsx: Haversine distance from the drone, then the priority
score. -/
noncomputable def rankedEntry (drone : Drone) (patient : Patient) : RankEntry :=
  let distance := calculateHaversineDistance drone.latitude drone.longitude
    patient.latitude patient.longitude
  { patient := patient, distance := distance,
    priority := calculatePriorityScore patient.severity distance }

/-- Insertion step of a stable descending-priority sort.  The source sorts
with the comparator (a, b) => b.priority - a.priority; JavaScript
Array.prototype.sort is specified to be stable, and for a consistent
comparator the stable descending order is unique, so this insertion sort
computes exactly the array the source produces. -/
noncomputable def insertEntry (x : RankEntry) : List RankEntry → List RankEntry
  | [] => [x]
  | y :: ys => if x.priority < y.priority then y :: insertEntry x ys else x :: y :: ys

/-- Stable sort by descending priority, modelling the source's
.sort((a, b) => b.priority - a.priority). -/
noncomputable def sortByPriorityDesc : List RankEntry → List RankEntry
  | [] => []
  | x :: xs => insertEntry x (sortByPriorityDesc xs)

/-- The full ranking pipeline of TacticalMapGrid.jsx (rankedPatients in
PriorityRankingPanel and the same map-then-sort in patientRankings): map
each patient to its entry, then sort by descending priority. -/
noncomputable def rankedPatients (drone : Drone) (patients : List Patient) :
    List RankEntry :=
  sortByPriorityDesc (patients.map (rankedEntry drone))

lemma insertEntry_perm (x : RankEntry) (l : List RankEntry) :
    insertEntry x l ~ x :: l := by
  induction l with
  | nil => exact List.Perm.refl _
  | cons y ys ih =>
    by_cases h : x.priority < y.priority
    · rw [insertEntry, if_pos h]
      exact (ih.cons y).trans (List.Perm.swap x y ys)
    · rw [insertEntry, if_neg h]

lemma mem_insertEntry {z x : RankEntry} {l : List RankEntry} :
    z ∈ insertEntry x l ↔ z = x ∨ z ∈ l := by
  rw [(insertEntry_perm x l).mem_iff, List.mem_cons]

lemma sortByPriorityDesc_perm (l : List RankEntry) : sortByPriorityDesc l ~ l := by
  induction l with
  | nil => exact List.Perm.refl _
  | cons x xs ih =>
    rw [sortByPriorityDesc]
    exact (insertEntry_perm x (sortByPriorityDesc xs)).trans (ih.cons x)

lemma insertEntry_sorted {x : RankEntry} {l : List RankEntry}
    (h : l.Sorted (fun a b => b.priority ≤ a.priority)) :
    (insertEntry x l).Sorted (fun a b => b.priority ≤ a.priority) := by
  induction l with
  | nil => simp [insertEntry]
  | cons y ys ih =>
    rw [List.sorted_cons] at h
    by_cases hxy : x.priority < y.priority
    · rw [insertEntry, if_pos hxy, List.sorted_cons]
      refine ⟨fun b hb => ?_, ih h.2⟩
      rcases mem_insertEntry.mp hb with rfl | hb2
      · exact hxy.le
      · exact h.1 b hb2
    · rw [insertEntry, if_neg hxy, List.sorted_cons]
      push_neg at hxy
      refine ⟨fun b hb => ?_, List.sorted_cons.mpr h⟩
      rcases List.mem_cons.mp hb with rfl | hb2
      · exact hxy
      · exact le_trans (h.1 b hb2) hxy

lemma sortByPriorityDesc_sorted (l : List RankEntry) :
    (sortByPriorityDesc l).Sorted (fun a b => b.priority ≤ a.priority) := by
  induction l with
  | nil => simp [sortByPriorityDesc]
  | cons x xs ih => exact insertEntry_sorted ih

lemma filter_insertEntry (x : RankEntry) (l : List RankEntry) (q : ℝ) :
    (insertEntry x l).filter (fun e => decide (e.priority = q)) =
      if x.priority = q then x :: l.filter (fun e => decide (e.priority = q))
      else l.filter (fun e => decide (e.priority = q)) := by
  induction l with
  | nil => by_cases hq : x.priority = q <;> simp [insertEntry, hq]
  | cons y ys ih =>
    by_cases hxy : x.priority < y.priority
    · rw [insertEntry, if_pos hxy]
      by_cases hq : x.priority = q
      · have hy : ¬(y.priority = q) := by
          rw [← hq]
          exact (ne_of_gt hxy)
        simp [List.filter_cons, hy, hq, ih]
      · by_cases hyq : y.priority = q <;> simp [List.filter_cons, hq, hyq, ih]
    · rw [insertEntry, if_neg hxy]
      by_cases hq : x.priority = q <;>
        by_cases hyq : y.priority = q <;>
          simp [List.filter_cons, hq, hyq]

lemma filter_sortByPriorityDesc (l : List RankEntry) (q : ℝ) :
    (sortByPriorityDesc l).filter (fun e => decide (e.priority = q)) =
      l.filter (fun e => decide (e.priority = q)) := by
  induction l with
  | nil => rfl
  | cons x xs ih =>
    rw [sortByPriorityDesc, filter_insertEntry]
    by_cases hq : x.priority = q <;> simp [List.filter_cons, hq, ih]

/-- C1: the priority score the ranker assigns to every case equals
severity × 1.5 − distance_km, the distance being the Haversine distance
between the drone and the case (weights W_sev = 1.5, W_dist = 1.0). -/
theorem priority_score_formula (drone : Drone) (patient : Patient) :
    (rankedEntry drone patient).priority =
      patient.severity * 1.5 -
        calculateHaversineDistance drone.latitude drone.longitude
          patient.latitude patient.longitude ∧
    (rankedEntry drone patient).priority =
      patient.severity * 1.5 - (rankedEntry drone patient).distance * 1 := by
  constructor
  · rfl
  · rw [mul_one]
    rfl

lemma havTerm_equator (l1 l2 : ℝ) :
    havTerm 0 l1 0 l2 =
      Real.sin ((l2 - l1) * Real.pi / 360) * Real.sin ((l2 - l1) * Real.pi / 360) := by
  unfold havTerm
  rw [show (l2 - l1) * Real.pi / 180 / 2 = (l2 - l1) * Real.pi / 360 by ring]
  simp

lemma haversine_equator (l1 l2 : ℝ) (h0 : 0 ≤ (l2 - l1) * Real.pi / 360)
    (h1 : (l2 - l1) * Real.pi / 360 ≤ Real.pi / 2) :
    calculateHaversineDistance 0 l1 0 l2 = 6371 * (2 * ((l2 - l1) * Real.pi / 360)) := by
  rw [calculateHaversineDistance_eq, havTerm_equator]
  have hs : 0 ≤ Real.sin ((l2 - l1) * Real.pi / 360) :=
    Real.sin_nonneg_of_nonneg_of_le_pi h0 (by linarith [Real.pi_pos])
  rw [show Real.sin ((l2 - l1) * Real.pi / 360) * Real.sin ((l2 - l1) * Real.pi / 360) =
    Real.sin ((l2 - l1) * Real.pi / 360) ^ 2 by ring]
  rw [Real.sqrt_sq hs, Real.arcsin_sin (by linarith [Real.pi_pos]) h1]

lemma calculateDistance_equator_obtuse (l1 l2 : ℝ)
    (h1 : Real.pi / 2 < (l2 - l1) * Real.pi / 360)
    (h2 : (l2 - l1) * Real.pi / 360 < Real.pi) :
    calculateDistance 0 l1 0 l2 =
      6371 * (2 * (Real.pi - (l2 - l1) * Real.pi / 360)) := by
  have hpi := Real.pi_pos
  set t := (l2 - l1) * Real.pi / 360 with ht
  rw [calculateDistance_eq, havTerm_equator]
  have hs : 0 ≤ Real.sin t := Real.sin_nonneg_of_nonneg_of_le_pi (by linarith) h2.le
  have hc : Real.cos t < 0 := Real.cos_neg_of_pi_div_two_lt_of_lt h1 (by linarith)
  rw [show Real.sin t * Real.sin t = Real.sin t ^ 2 by ring, Real.sqrt_sq hs]
  rw [show 1 - Real.sin t ^ 2 = Real.cos t ^ 2 by
    have := Real.sin_sq_add_cos_sq t
    linarith]
  rw [Real.sqrt_sq_eq_abs, abs_of_neg hc]
  have harg : atan2 (Real.sin t) (-Real.cos t) = Real.pi - t := by
    unfold atan2
    rw [if_pos (by linarith)]
    have hsin : Real.sin t = Real.sin (Real.pi - t) := (Real.sin_pi_sub t).symm
    have hcos : -Real.cos t = Real.cos (Real.pi - t) := by
      rw [Real.cos_pi_sub]
    rw [hsin, hcos, ← Real.tan_eq_sin_div_cos,
      Real.arctan_tan (by linarith) (by linarith)]
  rw [harg]

/-- Concrete vehicle at the origin, used in the C2 counterexample. -/
noncomputable def droneEx : Drone := ⟨0, 0⟩

/-- Longitude chosen so the equatorial Haversine distance from the origin is
exactly 1.5 km. -/
noncomputable def lonA : ℝ := 270 / (6371 * Real.pi)

/-- First-created case: severity 10 at 1.5 km from the vehicle, so its
priority score is 10 × 1.5 − 1.5 = 13.5. -/
noncomputable def caseA : Patient := ⟨"A", 0, lonA, 10⟩

/-- Second-created case: severity 9 at distance 0, so its priority score is
9 × 1.5 − 0 = 13.5, tying caseA with a strictly smaller distance. -/
noncomputable def caseB : Patient := ⟨"B", 0, 0, 9⟩

lemma rankedEntry_distance (drone : Drone) (p : Patient) :
    (rankedEntry drone p).distance =
      calculateHaversineDistance drone.latitude drone.longitude p.latitude p.longitude := rfl

lemma rankedEntry_priority (drone : Drone) (p : Patient) :
    (rankedEntry drone p).priority =
      calculatePriorityScore p.severity
        (calculateHaversineDistance drone.latitude drone.longitude p.latitude p.longitude) := rfl

lemma lonA_angle : (lonA - 0) * Real.pi / 360 = 3 / 25484 := by
  unfold lonA
  have hpi := Real.pi_ne_zero
  field_simp
  ring

lemma distA_eval :
    calculateHaversineDistance droneEx.latitude droneEx.longitude
      caseA.latitude caseA.longitude = 3 / 2 := by
  show calculateHaversineDistance 0 0 0 lonA = 3 / 2
  rw [haversine_equator 0 lonA (by rw [lonA_angle]; norm_num)
    (by rw [lonA_angle]; nlinarith [Real.pi_gt_three]), lonA_angle]
  norm_num

lemma distB_eval :
    calculateHaversineDistance droneEx.latitude droneEx.longitude
      caseB.latitude caseB.longitude = 0 :=
  calculateHaversineDistance_self 0 0

lemma caseA_distance : (rankedEntry droneEx caseA).distance = 3 / 2 := by
  rw [rankedEntry_distance]
  exact distA_eval

lemma caseB_distance : (rankedEntry droneEx caseB).distance = 0 := by
  rw [rankedEntry_distance]
  exact distB_eval

lemma caseA_priority : (rankedEntry droneEx caseA).priority = 27 / 2 := by
  rw [rankedEntry_priority, distA_eval]
  show (10 : ℝ) * 1.5 - 3 / 2 = 27 / 2
  norm_num

lemma caseB_priority : (rankedEntry droneEx caseB).priority = 27 / 2 := by
  rw [rankedEntry_priority, distB_eval]
  show (9 : ℝ) * 1.5 - 0 = 27 / 2
  norm_num

/-- The ordering the claim asserts for consecutive ranking entries: strictly
greater priority first, and ties broken by ascending distance.  This
definition follows the spec text, to be compared with the ranking the source
actually produces. -/
def specClaimOrder (a b : RankEntry) : Prop :=
  b.priority < a.priority ∨ (a.priority = b.priority ∧ a.distance ≤ b.distance)

lemma rankedPatients_pair :
    rankedPatients droneEx [caseA, caseB] =
      [rankedEntry droneEx caseA, rankedEntry droneEx caseB] := by
  unfold rankedPatients
  rw [List.map_cons, List.map_cons, List.map_nil]
  simp only [sortByPriorityDesc, insertEntry]
  rw [caseA_priority, caseB_priority, if_neg (lt_irrefl _)]

/-- C2 counterexample: with the vehicle at the origin, caseA (severity 10,
distance 1.5 km, created first) and caseB (severity 9, distance 0 km,
created second) have equal priority scores 13.5, yet the ranking leaves the
farther caseA first: the claimed ascending-distance tie-break does not hold
of the source's sort, which compares priority only. -/
theorem ranking_tiebreak_counterexample :
    ¬ (rankedPatients droneEx [caseA, caseB]).Pairwise specClaimOrder := by
  rw [rankedPatients_pair]
  intro hpw
  have h1 := List.rel_of_pairwise_cons hpw (List.mem_singleton.mpr rfl)
  rcases h1 with h | ⟨_, hdist⟩
  · rw [caseA_priority, caseB_priority] at h
    exact lt_irrefl _ h
  · rw [caseA_distance, caseB_distance] at hdist
    norm_num at hdist

/-- C2 (amended): the ranking is a deterministic total order sorted by
descending priority score; entries with equal priority score keep their
input (creation) order — the source's comparator never consults the
distance, so there is no ascending-distance tie-break.  Stability is stated
as: for every priority value, filtering the output at that value returns
exactly the input entries with that value, in input order. -/
theorem ranking_sorted_stable (drone : Drone) (patients : List Patient) :
    (rankedPatients drone patients).Perm (patients.map (rankedEntry drone)) ∧
    (rankedPatients drone patients).Sorted (fun a b => b.priority ≤ a.priority) ∧
    ∀ q : ℝ, (rankedPatients drone patients).filter (fun e => decide (e.priority = q)) =
      (patients.map (rankedEntry drone)).filter (fun e => decide (e.priority = q)) :=
  ⟨sortByPriorityDesc_perm _, sortByPriorityDesc_sorted _,
   fun q => filter_sortByPriorityDesc _ q⟩

/-- A latitude/longitude pair as used by the drone movement simulation in
CommandCenterNew.jsx (droneLocation / patientLocation objects). -/
structure GeoPos where
  lat : ℝ
  lng : ℝ

/-- One position update of the drone movement simulation effect in
CommandCenterNew.jsx: the arrival test (distance < 0.05 km) runs first and
returns the previous position unchanged; otherwise the position moves 2% of
the remaining vector toward the target. -/
noncomputable def droneTick (patientLocation prev : GeoPos) : GeoPos :=
  if calculateDistance prev.lat prev.lng patientLocation.lat patientLocation.lng < 0.05 then
    prev
  else
    ⟨prev.lat + (patientLocation.lat - prev.lat) * 0.02,
     prev.lng + (patientLocation.lng - prev.lng) * 0.02⟩

/-- The integer minute count of calculateETA in CommandCenterNew.jsx:
ceil(distanceKm / speedKmH * 60). -/
noncomputable def etaMinutes (distanceKm speedKmH : ℝ) : ℤ :=
  ⌈distanceKm / speedKmH * 60⌉

/-- calculateETA from CommandCenterNew.jsx: formats the minute count,
displaying the string below one minute, with default speed 60 km/h. -/
noncomputable def calculateETA (distanceKm : ℝ) (speedKmH : ℝ := 60) : String :=
  if etaMinutes distanceKm speedKmH ≤ 1 then "< 1 min"
  else toString (etaMinutes distanceKm speedKmH) ++ " min"

/-- State of the movement simulation: drone position, displayed ETA, and
whether the interval is still running (clearInterval sets it to false). -/
structure SimState where
  pos : GeoPos
  eta : String
  active : Bool

/-- One full callback of the movement interval in CommandCenterNew.jsx:
a cleared interval never fires again; within 0.05 km the position is kept,
the ETA becomes ARRIVED and the interval is cleared; otherwise the position
interpolates 2% toward the target and the ETA is recomputed from the new
distance at the default speed. -/
noncomputable def simTick (patientLocation : GeoPos) (s : SimState) : SimState :=
  if s.active then
    if calculateDistance s.pos.lat s.pos.lng patientLocation.lat patientLocation.lng < 0.05 then
      { pos := s.pos, eta := "ARRIVED", active := false }
    else
      let newPos : GeoPos :=
        ⟨s.pos.lat + (patientLocation.lat - s.pos.lat) * 0.02,
         s.pos.lng + (patientLocation.lng - s.pos.lng) * 0.02⟩
      { pos := newPos,
        eta := calculateETA
          (calculateDistance newPos.lat newPos.lng patientLocation.lat patientLocation.lng),
        active := true }
  else s

/-- Target on the equator just east of the antimeridian. -/
noncomputable def patientDL : GeoPos := ⟨0, 179⟩

/-- Drone on the equator just west of the antimeridian: 2 degrees from the
target around the globe, 358 degrees away in raw coordinates. -/
noncomputable def prevDL : GeoPos := ⟨0, -179⟩

lemma dist_before :
    calculateDistance prevDL.lat prevDL.lng patientDL.lat patientDL.lng =
      6371 * Real.pi / 90 := by
  have hpi := Real.pi_pos
  show calculateDistance 0 (-179) 0 179 = 6371 * Real.pi / 90
  rw [calculateDistance_equator_obtuse (-179) 179 (by nlinarith) (by nlinarith)]
  ring

lemma dist_before_ge :
    (0.05 : ℝ) ≤ calculateDistance prevDL.lat prevDL.lng patientDL.lat patientDL.lng := by
  rw [dist_before]
  nlinarith [Real.pi_gt_three]

lemma tick_DL : droneTick patientDL prevDL = ⟨0, -4296 / 25⟩ := by
  unfold droneTick
  rw [if_neg (not_lt.mpr dist_before_ge)]
  show GeoPos.mk (prevDL.lat + (patientDL.lat - prevDL.lat) * 0.02)
    (prevDL.lng + (patientDL.lng - prevDL.lng) * 0.02) = GeoPos.mk 0 (-4296 / 25)
  have h1 : prevDL.lat + (patientDL.lat - prevDL.lat) * 0.02 = 0 := by
    show (0 : ℝ) + ((0 : ℝ) - 0) * 0.02 = 0
    norm_num
  have h2 : prevDL.lng + (patientDL.lng - prevDL.lng) * 0.02 = -4296 / 25 := by
    show (-179 : ℝ) + ((179 : ℝ) - -179) * 0.02 = -4296 / 25
    norm_num
  rw [h1, h2]

lemma dist_after :
    calculateDistance (0 : ℝ) (-4296 / 25) 0 179 = 6371 * (229 * Real.pi) / 4500 := by
  have hpi := Real.pi_pos
  rw [calculateDistance_equator_obtuse (-4296 / 25) 179 (by nlinarith) (by nlinarith)]
  ring

/-- C3 counterexample: with the drone at (0, −179) and the stationary target
at (0, 179), the source's distance is about 222 km (well above the 0.05 km
threshold), yet one movement tick — which interpolates in raw coordinates
and therefore travels the wrong way around the globe — strictly increases
the distance to the target, refuting the claimed monotone decrease. -/
theorem tick_distance_counterexample :
    0.05 ≤ calculateDistance prevDL.lat prevDL.lng patientDL.lat patientDL.lng ∧
    calculateDistance prevDL.lat prevDL.lng patientDL.lat patientDL.lng <
      calculateDistance (droneTick patientDL prevDL).lat (droneTick patientDL prevDL).lng
        patientDL.lat patientDL.lng := by
  refine ⟨dist_before_ge, ?_⟩
  rw [dist_before, tick_DL]
  show 6371 * Real.pi / 90 < calculateDistance (0 : ℝ) (-4296 / 25) 0 179
  rw [dist_after]
  nlinarith [Real.pi_pos]

lemma simTick_inactive (patient : GeoPos) (s : SimState) (h : s.active = false) :
    simTick patient s = s := by
  unfold simTick
  rw [h]
  simp

/-- C3 (amended): while the simulation is active and the distance to the
stationary target is at least 0.05 km, a tick keeps the simulation active
and contracts both coordinate offsets to the target by exactly 0.98 (the
Haversine distance itself can increase across the antimeridian, as the
counterexample shows); at the first tick with distance below 0.05 km the
position is kept, the ETA becomes ARRIVED and the interval is cleared, and
every later tick leaves that arrived state — position and ETA — unchanged,
so ARRIVED is produced exactly once. -/
theorem tick_arrival_once_and_contraction (patient : GeoPos) (s : SimState) :
    (s.active = true →
      calculateDistance s.pos.lat s.pos.lng patient.lat patient.lng < 0.05 →
      simTick patient s = ⟨s.pos, "ARRIVED", false⟩ ∧
      ∀ n : ℕ, (simTick patient)^[n] ⟨s.pos, "ARRIVED", false⟩ = ⟨s.pos, "ARRIVED", false⟩) ∧
    (s.active = true →
      0.05 ≤ calculateDistance s.pos.lat s.pos.lng patient.lat patient.lng →
      (simTick patient s).active = true ∧
      (simTick patient s).pos.lat - patient.lat = 0.98 * (s.pos.lat - patient.lat) ∧
      (simTick patient s).pos.lng - patient.lng = 0.98 * (s.pos.lng - patient.lng)) ∧
    (s.active = false → simTick patient s = s) := by
  refine ⟨fun hact hd => ⟨?_, ?_⟩, fun hact hd => ?_, fun hact => simTick_inactive patient s hact⟩
  · unfold simTick
    rw [hact, if_pos (rfl : (true : Bool) = true), if_pos hd]
  · intro n
    induction n with
    | zero => rfl
    | succ k ih =>
      rw [Function.iterate_succ_apply, simTick_inactive patient _ rfl, ih]
  · have hstep : simTick patient s =
        { pos := ⟨s.pos.lat + (patient.lat - s.pos.lat) * 0.02,
            s.pos.lng + (patient.lng - s.pos.lng) * 0.02⟩,
          eta := calculateETA
            (calculateDistance (s.pos.lat + (patient.lat - s.pos.lat) * 0.02)
              (s.pos.lng + (patient.lng - s.pos.lng) * 0.02) patient.lat patient.lng),
          active := true } := by
      unfold simTick
      rw [hact, if_pos (rfl : (true : Bool) = true), if_neg (not_lt.mpr hd)]
    rw [hstep]
    refine ⟨rfl, ?_, ?_⟩ <;> ring

/-- Witness for the amended C3 theorem: with the target equal to the drone
position the distance is 0, so one tick freezes the state as ARRIVED and
three more ticks leave it unchanged; at the antimeridian input the distance
is ≥ 0.05 km and the tick contracts both offsets by 0.98; an inactive state
is left untouched. -/
theorem tick_arrival_once_and_contraction_witness :
    simTick (⟨0, 0⟩ : GeoPos) ⟨⟨0, 0⟩, "2 min", true⟩ = ⟨⟨0, 0⟩, "ARRIVED", false⟩ ∧
    (simTick (⟨0, 0⟩ : GeoPos))^[3] ⟨⟨0, 0⟩, "ARRIVED", false⟩ = ⟨⟨0, 0⟩, "ARRIVED", false⟩ ∧
    (simTick patientDL ⟨prevDL, "2 min", true⟩).pos.lng - patientDL.lng =
      0.98 * (prevDL.lng - patientDL.lng) ∧
    simTick (⟨0, 0⟩ : GeoPos) ⟨⟨5, 6⟩, "2 min", false⟩ = ⟨⟨5, 6⟩, "2 min", false⟩ := by
  have hzero : calculateDistance (0 : ℝ) 0 0 0 < 0.05 := by
    rw [calculateDistance_self]
    norm_num
  refine ⟨((tick_arrival_once_and_contraction ⟨0, 0⟩ ⟨⟨0, 0⟩, "2 min", true⟩).1 rfl hzero).1,
    ((tick_arrival_once_and_contraction ⟨0, 0⟩ ⟨⟨0, 0⟩, "2 min", true⟩).1 rfl hzero).2 3,
    ((tick_arrival_once_and_contraction patientDL ⟨prevDL, "2 min", true⟩).2.1 rfl
      dist_before_ge).2.2,
    (tick_arrival_once_and_contraction ⟨0, 0⟩ ⟨⟨5, 6⟩, "2 min", false⟩).2.2 rfl⟩

/-- C10: the movement tick tests arrival before moving: below the 0.05 km
threshold the previous position is returned unchanged and every later tick
returns it unchanged as well; on a moving tick both coordinate offsets from
the stationary target are exactly 0.98 times the previous offsets. -/
theorem tick_gate_and_offsets (patient prev : GeoPos) :
    (calculateDistance prev.lat prev.lng patient.lat patient.lng < 0.05 →
      ∀ n : ℕ, (droneTick patient)^[n] prev = prev) ∧
    (0.05 ≤ calculateDistance prev.lat prev.lng patient.lat patient.lng →
      (droneTick patient prev).lat - patient.lat = 0.98 * (prev.lat - patient.lat) ∧
      (droneTick patient prev).lng - patient.lng = 0.98 * (prev.lng - patient.lng)) := by
  constructor
  · intro hd n
    have hfix : droneTick patient prev = prev := by
      unfold droneTick
      rw [if_pos hd]
    induction n with
    | zero => rfl
    | succ k ih => rw [Function.iterate_succ_apply, hfix, ih]
  · intro hd
    have hstep : droneTick patient prev =
        ⟨prev.lat + (patient.lat - prev.lat) * 0.02,
         prev.lng + (patient.lng - prev.lng) * 0.02⟩ := by
      unfold droneTick
      rw [if_neg (not_lt.mpr hd)]
    rw [hstep]
    constructor <;> ring

/-- Witness for the C10 theorem: a drone already at the target never moves
across four ticks, and at the antimeridian input (distance ≥ 0.05 km) one
tick scales both offsets by exactly 0.98. -/
theorem tick_gate_and_offsets_witness :
    (droneTick (⟨0, 0⟩ : GeoPos))^[4] ⟨0, 0⟩ = ⟨0, 0⟩ ∧
    (droneTick patientDL prevDL).lat - patientDL.lat = 0.98 * (prevDL.lat - patientDL.lat) ∧
    (droneTick patientDL prevDL).lng - patientDL.lng = 0.98 * (prevDL.lng - patientDL.lng) := by
  have hzero : calculateDistance (0 : ℝ) 0 0 0 < 0.05 := by
    rw [calculateDistance_self]
    norm_num
  exact ⟨(tick_gate_and_offsets ⟨0, 0⟩ ⟨0, 0⟩).1 hzero 4,
    (tick_gate_and_offsets patientDL prevDL).2 dist_before_ge⟩

lemma toDigitsCore_head (b : ℕ) : ∀ (fuel n : ℕ) (ds : List Char),
    Nat.toDigitsCore b fuel n ds = ds ∨
      ∃ k rest, Nat.toDigitsCore b fuel n ds = Nat.digitChar k :: rest := by
  intro fuel
  induction fuel with
  | zero =>
    intro n ds
    left
    rfl
  | succ f ih =>
    intro n ds
    simp only [Nat.toDigitsCore]
    by_cases h : n / b = 0
    · rw [if_pos h]
      right
      exact ⟨n % b, ds, rfl⟩
    · rw [if_neg h]
      rcases ih (n / b) (Nat.digitChar (n % b) :: ds) with h2 | ⟨k, rest, h2⟩
      · right
        exact ⟨n % b, ds, h2⟩
      · right
        exact ⟨k, rest, h2⟩

lemma digitChar_ne_lt (k : ℕ) : Nat.digitChar k ≠ '<' := by
  rcases Nat.lt_or_ge k 16 with h | h
  · interval_cases k <;> decide
  · unfold Nat.digitChar
    repeat rw [if_neg (by omega)]
    decide

lemma natRepr_head (n : ℕ) :
    Nat.repr n = "" ∨ ∃ k rest, (Nat.repr n).data = Nat.digitChar k :: rest := by
  rcases toDigitsCore_head 10 (n + 1) n [] with h | ⟨k, rest, h⟩
  · left
    show (Nat.toDigits 10 n).asString = ""
    rw [Nat.toDigits, h]
    rfl
  · right
    refine ⟨k, rest, ?_⟩
    show (Nat.toDigits 10 n).asString.data = Nat.digitChar k :: rest
    rw [Nat.toDigits, h]
    rfl

lemma repr_append_min_ne (m : ℤ) (h : 2 ≤ m) : toString m ++ " min" ≠ "< 1 min" := by
  obtain ⟨n, rfl⟩ : ∃ n : ℕ, m = (n : ℤ) := ⟨m.toNat, (Int.toNat_of_nonneg (by linarith)).symm⟩
  have htos : toString ((n : ℕ) : ℤ) = Nat.repr n := rfl
  rcases natRepr_head n with h0 | ⟨k, rest, hk⟩
  · rw [htos, h0]
    intro hc
    exact absurd hc (by decide)
  · intro hc
    have hdata := congrArg String.data hc
    rw [String.data_append, htos, hk] at hdata
    have hhead : Nat.digitChar k = '<' := by
      have : Nat.digitChar k :: (rest ++ (" min").data) = "< 1 min".data := by
        simpa using hdata
    -- the two data lists agree, compare heads
      exact (List.cons.injEq _ _ _ _ ▸ this : _ ∧ _).1
    exact digitChar_ne_lt k hhead

/-- C7: the ETA recomputed by the simulation equals
ceil(distance_km / avg_speed_kmh * 60) minutes, and the displayed string is
the below-one-minute form exactly when that minute count is at most 1. -/
theorem eta_formula (distanceKm speedKmH : ℝ) :
    etaMinutes distanceKm speedKmH = ⌈distanceKm / speedKmH * 60⌉ ∧
    (calculateETA distanceKm speedKmH = "< 1 min" ↔ etaMinutes distanceKm speedKmH ≤ 1) := by
  refine ⟨rfl, ?_, fun hle => ?_⟩
  · intro hdisp
    by_contra hgt
    push_neg at hgt
    rw [calculateETA, if_neg (not_le.mpr hgt)] at hdisp
    exact repr_append_min_ne _ hgt hdisp
  · rw [calculateETA, if_pos hle]

/-- Helper for the substring test: does pat occur as a contiguous block of
the second list? -/
def includesAux (pat : List Char) : List Char → Bool
  | [] => pat.isEmpty
  | c :: rest => pat.isPrefixOf (c :: rest) || includesAux pat rest

/-- JavaScript String.prototype.includes: substring test. -/
def includes (hay pat : String) : Bool :=
  includesAux pat.data hay.data

/-- Result record of analyzeCriticalTimeWindow in CommandCenterNew.jsx. -/
structure TimeWindow where
  timeRange : String
  timeMinutes : ℤ
  urgencyLabel : String
  urgencyColor : String
  progressPercent : ℤ
  explanation : String

/-- analyzeCriticalTimeWindow from CommandCenterNew.jsx: fixed severity
bands evaluated in descending order fill every field, then caption keyword
cues append fixed clauses to the explanation only. -/
def analyzeCriticalTimeWindow (severityScore : ℤ) (injuryType : String) : TimeWindow :=
  let caption := injuryType.toLower
  let base : TimeWindow :=
    if 9 ≤ severityScore then
      { timeRange := "0-5 minutes", timeMinutes := 5, urgencyLabel := "IMMEDIATE",
        urgencyColor := "text-red-500", progressPercent := 100,
        explanation := "Extreme severity detected. Patient requires immediate intervention. Delays beyond 5 minutes significantly increase mortality risk. Emergency response must be deployed NOW." }
    else if 7 ≤ severityScore then
      { timeRange := "5-15 minutes", timeMinutes := 15, urgencyLabel := "CRITICAL",
        urgencyColor := "text-orange-500", progressPercent := 75,
        explanation := "Critical condition identified. Patient stability declining rapidly. Medical intervention required within 15 minutes to prevent life-threatening complications." }
    else if 4 ≤ severityScore then
      { timeRange := "15-30 minutes", timeMinutes := 30, urgencyLabel := "URGENT",
        urgencyColor := "text-yellow-500", progressPercent := 50,
        explanation := "Urgent medical attention required. Patient condition is unstable but manageable with timely intervention. Response should be dispatched within 30 minutes." }
    else
      { timeRange := "30-60 minutes", timeMinutes := 60, urgencyLabel := "STABLE",
        urgencyColor := "text-green-500", progressPercent := 25,
        explanation := "Patient appears stable. Condition does not indicate immediate life threat, but medical evaluation should occur within one hour as precaution." }
  let e1 :=
    if includes caption "bleeding" || includes caption "hemorrhage" then
      base.explanation ++ " Hemorrhage indicators reduce available time window."
    else base.explanation
  let e2 :=
    if includes caption "unconscious" || includes caption "unresponsive" then
      e1 ++ " Loss of consciousness escalates urgency."
    else e1
  let e3 :=
    if includes caption "fracture" && decide (7 ≤ severityScore) then
      e2 ++ " Severe structural trauma may indicate internal injuries."
    else e2
  { base with explanation := e3 }

/-- C5: the time-window estimator returns the 0-5 minute IMMEDIATE band for
severity ≥ 9, the 5-15 minute CRITICAL band for 7 ≤ severity < 9, the 15-30
minute URGENT band for 4 ≤ severity < 7, and the 30-60 minute STABLE band
otherwise, the bands being tested in descending order. -/
theorem time_window_bands (severityScore : ℤ) (injuryType : String) :
    (9 ≤ severityScore →
      (analyzeCriticalTimeWindow severityScore injuryType).timeRange = "0-5 minutes" ∧
      (analyzeCriticalTimeWindow severityScore injuryType).timeMinutes = 5 ∧
      (analyzeCriticalTimeWindow severityScore injuryType).urgencyLabel = "IMMEDIATE") ∧
    (7 ≤ severityScore → severityScore < 9 →
      (analyzeCriticalTimeWindow severityScore injuryType).timeRange = "5-15 minutes" ∧
      (analyzeCriticalTimeWindow severityScore injuryType).timeMinutes = 15 ∧
      (analyzeCriticalTimeWindow severityScore injuryType).urgencyLabel = "CRITICAL") ∧
    (4 ≤ severityScore → severityScore < 7 →
      (analyzeCriticalTimeWindow severityScore injuryType).timeRange = "15-30 minutes" ∧
      (analyzeCriticalTimeWindow severityScore injuryType).timeMinutes = 30 ∧
      (analyzeCriticalTimeWindow severityScore injuryType).urgencyLabel = "URGENT") ∧
    (severityScore < 4 →
      (analyzeCriticalTimeWindow severityScore injuryType).timeRange = "30-60 minutes" ∧
      (analyzeCriticalTimeWindow severityScore injuryType).timeMinutes = 60 ∧
      (analyzeCriticalTimeWindow severityScore injuryType).urgencyLabel = "STABLE") := by
  refine ⟨fun h9 => ?_, fun h7 h9 => ?_, fun h4 h7 => ?_, fun h4 => ?_⟩
  · unfold analyzeCriticalTimeWindow
    rw [if_pos h9]
    exact ⟨rfl, rfl, rfl⟩
  · unfold analyzeCriticalTimeWindow
    rw [if_neg (by omega), if_pos h7]
    exact ⟨rfl, rfl, rfl⟩
  · unfold analyzeCriticalTimeWindow
    rw [if_neg (by omega), if_neg (by omega), if_pos h4]
    exact ⟨rfl, rfl, rfl⟩
  · unfold analyzeCriticalTimeWindow
    rw [if_neg (by omega), if_neg (by omega), if_neg (by omega)]
    exact ⟨rfl, rfl, rfl⟩

/-- Witness for the C5 theorem at the spec's sample severities 9 and 3, plus
the two inner bands. -/
theorem time_window_bands_witness :
    (analyzeCriticalTimeWindow 9 "").timeRange = "0-5 minutes" ∧
    (analyzeCriticalTimeWindow 9 "").urgencyLabel = "IMMEDIATE" ∧
    (analyzeCriticalTimeWindow 7 "").urgencyLabel = "CRITICAL" ∧
    (analyzeCriticalTimeWindow 4 "").urgencyLabel = "URGENT" ∧
    (analyzeCriticalTimeWindow 3 "").timeRange = "30-60 minutes" ∧
    (analyzeCriticalTimeWindow 3 "").urgencyLabel = "STABLE" :=
  ⟨((time_window_bands 9 "").1 (by decide)).1,
   ((time_window_bands 9 "").1 (by decide)).2.2,
   ((time_window_bands 7 "").2.1 (by decide) (by decide)).2.2,
   ((time_window_bands 4 "").2.2.1 (by decide) (by decide)).2.2,
   ((time_window_bands 3 "").2.2.2 (by decide)).1,
   ((time_window_bands 3 "").2.2.2 (by decide)).2.2⟩

/-- C9: the caption-cue modifier clauses touch only the explanation text:
the numeric time range, minute count and urgency label of the time-window
estimate are identical for any two captions at the same severity. -/
theorem caption_cues_only_change_explanation (severityScore : ℤ) (c1 c2 : String) :
    (analyzeCriticalTimeWindow severityScore c1).timeRange =
      (analyzeCriticalTimeWindow severityScore c2).timeRange ∧
    (analyzeCriticalTimeWindow severityScore c1).timeMinutes =
      (analyzeCriticalTimeWindow severityScore c2).timeMinutes ∧
    (analyzeCriticalTimeWindow severityScore c1).urgencyLabel =
      (analyzeCriticalTimeWindow severityScore c2).urgencyLabel :=
  ⟨rfl, rfl, rfl⟩

/-- Output record of the severity classifier: a severity score and the
confidence carried through. -/
structure TriageResult where
  severity : ℤ
  confidence : ℚ
deriving DecidableEq

/-- Modelled from the spec: the severity classifier lives in the backend
file main.py (caption_to_triage), which is not present under src/ — only
documentation excerpts of it are.  The spec prescribes an ordered rule
table of (keyword-group, severity) pairs with the most severe groups first:
unconscious/unresponsive, then bleeding, then lying/fallen. -/
def severityRules : List (List String × ℤ) :=
  [(["unconscious", "unresponsive"], 9), (["bleeding"], 8), (["lying", "fallen"], 7)]

/-- A keyword group matches when any of its keywords occurs as a substring
of the caption. -/
def matchesGroup (caption : String) (group : List String) : Bool :=
  group.any (fun keyword => includes caption keyword)

/-- Modelled from the spec: classify(caption, confidence) walks the ordered
rule table top-to-bottom, the first matching group wins, no match (or an
empty caption) falls back to the default low severity 2, and the confidence
is passed through unmodified in every case. -/
def classify (caption : String) (confidence : ℚ) : TriageResult :=
  match severityRules.find? (fun rule => matchesGroup caption rule.1) with
  | some rule => { severity := rule.2, confidence := confidence }
  | none => { severity := 2, confidence := confidence }

/-- C6: the classifier evaluates its ordered rule table top-to-bottom with
the most severe groups first (unconscious/unresponsive at 9, then bleeding
at 8, then lying/fallen at 7), the first matching group wins even when later
groups also match, any unmatched caption — including the empty caption —
gets the default severity 2, and the confidence is always passed through
unmodified. -/
theorem classify_rule_table (caption : String) (confidence : ℚ) :
    (classify caption confidence).confidence = confidence ∧
    (matchesGroup caption ["unconscious", "unresponsive"] = true →
      (classify caption confidence).severity = 9) ∧
    (matchesGroup caption ["unconscious", "unresponsive"] = false →
      matchesGroup caption ["bleeding"] = true →
      (classify caption confidence).severity = 8) ∧
    (matchesGroup caption ["unconscious", "unresponsive"] = false →
      matchesGroup caption ["bleeding"] = false →
      matchesGroup caption ["lying", "fallen"] = true →
      (classify caption confidence).severity = 7) ∧
    (matchesGroup caption ["unconscious", "unresponsive"] = false →
      matchesGroup caption ["bleeding"] = false →
      matchesGroup caption ["lying", "fallen"] = false →
      classify caption confidence = ⟨2, confidence⟩) ∧
    classify "" confidence = ⟨2, confidence⟩ := by
  refine ⟨?_, fun h1 => ?_, fun h1 h2 => ?_, fun h1 h2 h3 => ?_, fun h1 h2 h3 => ?_, rfl⟩
  · unfold classify
    cases severityRules.find? (fun rule => matchesGroup caption rule.1) <;> rfl
  · unfold classify severityRules
    simp only [List.find?, h1]
  · unfold classify severityRules
    simp only [List.find?, h1, h2]
  · unfold classify severityRules
    simp only [List.find?, h1, h2, h3]
  · unfold classify severityRules
    simp only [List.find?, h1, h2, h3]

/-- Witness for the C6 theorem: a caption hitting the top group wins over a
simultaneous bleeding match, a bleeding-only caption gets 8, a lying-only
caption gets 7, and an unmatched caption keeps its confidence with the
default severity 2. -/
theorem classify_rule_table_witness :
    (classify "unconscious person bleeding on floor" (4 / 5)).severity = 9 ∧
    (classify "person bleeding heavily" (3 / 4)).severity = 8 ∧
    (classify "man lying near a bench" (1 / 2)).severity = 7 ∧
    classify "calm street scene" (9 / 10) = ⟨2, 9 / 10⟩ ∧
    classify "" (1 / 10) = ⟨2, 1 / 10⟩ :=
  ⟨(classify_rule_table "unconscious person bleeding on floor" (4 / 5)).2.1 rfl,
   (classify_rule_table "person bleeding heavily" (3 / 4)).2.2.1 rfl rfl,
   (classify_rule_table "man lying near a bench" (1 / 2)).2.2.2.1 rfl rfl rfl,
   (classify_rule_table "calm street scene" (9 / 10)).2.2.2.2.1 rfl rfl rfl,
   (classify_rule_table "" (1 / 10)).2.2.2.2.2⟩

/-- A waypoint as in the backend's documented Location(lat, lng, id). -/
structure Location where
  lat : ℝ
  lng : ℝ
  id : String

/-- Length of one route leg, using the Haversine engine. -/
noncomputable def legDist (a b : Location) : ℝ :=
  calculateHaversineDistance a.lat a.lng b.lat b.lng

/-- Total length of an open tour that starts at start and visits the listed
locations in order. -/
noncomputable def routeLength (start : Location) : List Location → ℝ
  | [] => 0
  | t :: ts => legDist start t + routeLength t ts

noncomputable instance : DecidableEq Location := Classical.decEq _

/-- The nearest remaining location to cur (argmin of leg distance), with a
default for the impossible empty case. -/
noncomputable def nearestTo (cur : Location) (rem : List Location) (dflt : Location) :
    Location :=
  match rem.argmin (fun t => legDist cur t) with
  | some n => n
  | none => dflt

/-- Fuel-indexed greedy nearest-unvisited walk. -/
noncomputable def greedyGo : ℕ → Location → List Location → List Location
  | 0, _, _ => []
  | _ + 1, _, [] => []
  | fuel + 1, cur, r :: rs =>
    let next := nearestTo cur (r :: rs) r
    next :: greedyGo fuel next ((r :: rs).erase next)

/-- Greedy nearest-unvisited route over the remaining targets. -/
noncomputable def greedyRoute (cur : Location) (rem : List Location) : List Location :=
  greedyGo rem.length cur rem

/-- Result of the route optimizer: visit order, total length, and whether
the result is only approximate. -/
structure RouteResult where
  route : List Location
  total : ℝ
  approximate : Bool

/-- Modelled from the spec: the route optimizer backend
(quantum_route_optimizer.py, exposed as POST /optimize-route) is not present
under src/ — only setup documentation of it is.  Per the spec, target counts
up to the exact-solve bound 10 are solved exactly (here realised as the
minimum-length open tour over all permutations, the guarantee the spec
attributes to its subset dynamic programming), and larger inputs fall back
to the greedy nearest-unvisited heuristic flagged approximate := true. -/
noncomputable def optimizeRoute (vehicle : Location) (targets : List Location) :
    RouteResult :=
  if targets.length ≤ 10 then
    match targets.permutations.argmin (routeLength vehicle) with
    | some best => { route := best, total := routeLength vehicle best, approximate := false }
    | none => { route := [], total := 0, approximate := false }
  else
    { route := greedyRoute vehicle targets,
      total := routeLength vehicle (greedyRoute vehicle targets), approximate := true }

/-- C4: within the exact-solve bound of 10 targets the optimizer returns a
visit order of exactly the given targets whose total length is minimal among
all permutations, not flagged approximate; above the bound it returns the
greedy nearest-unvisited route flagged approximate := true; zero targets
give the empty route of total 0; one target gives exactly the direct
Haversine leg from the vehicle. -/
theorem optimize_route_contract (vehicle : Location) (targets : List Location) :
    (targets.length ≤ 10 →
      (optimizeRoute vehicle targets).approximate = false ∧
      (optimizeRoute vehicle targets).route.Perm targets ∧
      ∀ p : List Location, p.Perm targets →
        (optimizeRoute vehicle targets).total ≤ routeLength vehicle p) ∧
    (10 < targets.length →
      (optimizeRoute vehicle targets).route = greedyRoute vehicle targets ∧
      (optimizeRoute vehicle targets).approximate = true) ∧
    optimizeRoute vehicle [] = { route := [], total := 0, approximate := false } ∧
    ∀ t : Location, (optimizeRoute vehicle [t]).route = [t] ∧
      (optimizeRoute vehicle [t]).total =
        calculateHaversineDistance vehicle.lat vehicle.lng t.lat t.lng := by
  have hmain : ∀ ts : List Location, ts.length ≤ 10 →
      (optimizeRoute vehicle ts).approximate = false ∧
      (optimizeRoute vehicle ts).route.Perm ts ∧
      (∀ p : List Location, p.Perm ts →
        (optimizeRoute vehicle ts).total ≤ routeLength vehicle p) ∧
      (optimizeRoute vehicle ts).total =
        routeLength vehicle (optimizeRoute vehicle ts).route := by
    intro ts hlen
    have hself : ts ∈ ts.permutations := List.mem_permutations.mpr (List.Perm.refl ts)
    unfold optimizeRoute
    rw [if_pos hlen]
    rcases hopt : ts.permutations.argmin (routeLength vehicle) with _ | best
    · rw [List.argmin_eq_none] at hopt
      rw [hopt] at hself
      exact absurd hself (List.not_mem_nil _)
    · refine ⟨rfl, List.perm_of_mem_permutations (List.argmin_mem hopt),
        fun p hp => ?_, rfl⟩
      exact List.le_of_mem_argmin (List.mem_permutations.mpr hp) hopt
  refine ⟨fun hlen => ⟨(hmain targets hlen).1, (hmain targets hlen).2.1,
    (hmain targets hlen).2.2.1⟩, fun hgt => ?_, ?_, fun t => ?_⟩
  · unfold optimizeRoute
    rw [if_neg (not_le.mpr hgt)]
    exact ⟨rfl, rfl⟩
  · obtain ⟨happrox, hperm, hmin, htot⟩ := hmain [] (by norm_num)
    have hr : (optimizeRoute vehicle []).route = [] := List.perm_nil.mp hperm
    have heta : optimizeRoute vehicle [] =
        ⟨(optimizeRoute vehicle []).route, (optimizeRoute vehicle []).total,
          (optimizeRoute vehicle []).approximate⟩ := rfl
    rw [heta, happrox, htot, hr]
    rfl
  · obtain ⟨happrox, hperm, hmin, htot⟩ := hmain [t] (by norm_num)
    have hr : (optimizeRoute vehicle [t]).route = [t] := List.perm_singleton.mp hperm
    refine ⟨hr, ?_⟩
    rw [htot, hr]
    show legDist vehicle t + routeLength t [] = _
    rw [show routeLength t [] = 0 from rfl, add_zero]
    rfl

/-- Concrete base location for the C4 witness. -/
noncomputable def baseLoc : Location := ⟨0, 0, "base"⟩

/-- Concrete single target for the C4 witness. -/
noncomputable def targetLoc : Location := ⟨0, lonA, "t1"⟩

/-- Eleven identical targets, exceeding the exact-solve bound. -/
noncomputable def elevenTargets : List Location := List.replicate 11 ⟨0, 0, "x"⟩

/-- Witness for the C4 theorem: the one-target instance is solved exactly
(flag false, route [t], total the direct Haversine leg, minimal among the
permutations of [t]), an eleven-target instance is flagged approximate, and
the zero-target instance returns the empty route of total 0. -/
theorem optimize_route_contract_witness :
    (optimizeRoute baseLoc [targetLoc]).approximate = false ∧
    (optimizeRoute baseLoc [targetLoc]).total ≤ routeLength baseLoc [targetLoc] ∧
    (optimizeRoute baseLoc [targetLoc]).route = [targetLoc] ∧
    (optimizeRoute baseLoc [targetLoc]).total =
      calculateHaversineDistance baseLoc.lat baseLoc.lng targetLoc.lat targetLoc.lng ∧
    (optimizeRoute baseLoc elevenTargets).approximate = true ∧
    optimizeRoute baseLoc [] = { route := [], total := 0, approximate := false } :=
  ⟨((optimize_route_contract baseLoc [targetLoc]).1 (by norm_num)).1,
   ((optimize_route_contract baseLoc [targetLoc]).1 (by norm_num)).2.2 [targetLoc]
     (List.Perm.refl _),
   ((optimize_route_contract baseLoc [targetLoc]).2.2.2 targetLoc).1,
   ((optimize_route_contract baseLoc [targetLoc]).2.2.2 targetLoc).2,
   ((optimize_route_contract baseLoc elevenTargets).2.1
     (by rw [show elevenTargets.length = 11 from rfl]; norm_num)).2,
   (optimize_route_contract baseLoc []).2.2.1⟩

end PranAIR
